import Mathlib

/-!
Shallow embedding of `src/config/config.py` (Data-warehouse repository).

The program reads a JSON configuration file, connects to PostgreSQL,
idempotently provisions schema `controller` with tables `app_config`
(versioned, append-only) and `log` (audit), allocates the next version
for a logical configuration name as `MAX(version) + 1`, inserts one new
immutable row, and best-effort audit-logs the outcome.

Database effects are embedded as explicit state: the `app_config` table
is a list of `ConfigRow` in insertion order, schema objects are boolean
existence flags, and the fallible external world (file system, connection,
individual SQL statements) is fault-injected through environment records.
-/

/-- One row of `controller.app_config` (surrogate id is the list position;
`created_at` is store-defaulted and irrelevant to the claims). The `config`
field holds the JSON document exactly as serialized by `json.dumps`. -/
structure ConfigRow where
  name : String
  version : Nat
  config : String
deriving DecidableEq, Repr

/-- Embedding of `SELECT COALESCE(MAX(version), 0) FROM controller.app_config
WHERE name = %s` executed by `get_next_version`: the maximum `version` over
the rows whose `name` matches, with 0 for an empty result set. -/
def sqlMaxVersion (rows : List ConfigRow) (n : String) : Nat :=
  ((rows.filter (fun r => r.name == n)).map (fun r => r.version)).foldl max 0

/-- `get_next_version(cur, name)` from config.py: runs the MAX query,
treats a NULL result as 0 (`row[0] if row and row[0] is not None else 0`),
and returns `(latest + 1, latest)`. -/
def get_next_version (rows : List ConfigRow) (n : String) : Nat × Nat :=
  let latest := sqlMaxVersion rows n
  (latest + 1, latest)

/-- `insert_new_version(cur, name, version, cfg_json)` from config.py:
a plain `INSERT INTO controller.app_config (name, version, config)` that
appends one row and touches nothing else. -/
def insert_new_version (rows : List ConfigRow) (n : String) (v : Nat)
    (cfg : String) : List ConfigRow :=
  rows ++ [⟨n, v, cfg⟩]

/-- Steps 4-5 of `main` for one run: allocate the next version with
`get_next_version`, then insert the document under it. -/
def insertFlow (rows : List ConfigRow) (n cfg : String) : List ConfigRow :=
  insert_new_version rows n (get_next_version rows n).1 cfg

/-- `k` sequential successful runs of the insert flow, all with the same
logical name `n` and document `cfg`. -/
def insertRuns (rows : List ConfigRow) (n cfg : String) : Nat → List ConfigRow
  | 0 => rows
  | k + 1 => insertRuns (insertFlow rows n cfg) n cfg k

/-- Retrieval of the document stored for `(n, v)`: first row whose name and
version both match (unique by the `UNIQUE (name, version)` constraint). -/
def lookupConfig (rows : List ConfigRow) (n : String) (v : Nat) : Option String :=
  (rows.find? (fun r => r.name == n && r.version == v)).map (fun r => r.config)

/-! ### Schema provisioning (`ensure_schema_and_table`) -/

/-- Existence flags for the four schema objects config.py creates. -/
structure SchemaState where
  hasSchema : Bool
  hasLogTable : Bool
  hasAppConfigTable : Bool
  hasNameVersionIdx : Bool
deriving DecidableEq, Repr

/-- The four DDL statements issued by `ensure_schema_and_table`, each with
its `IF NOT EXISTS` flag as written in the SQL text. -/
inductive Stmt where
  | createSchema (ifNotExists : Bool)
  | createLogTable (ifNotExists : Bool)
  | createAppConfigTable (ifNotExists : Bool)
  | createNameVersionIdx (ifNotExists : Bool)
deriving DecidableEq, Repr

/-- PostgreSQL DDL semantics for the statements above: a plain `CREATE`
errors when the object already exists; with `IF NOT EXISTS` it is a no-op
in that case. Either way a successful statement leaves the object present. -/
def execStmt (s : SchemaState) : Stmt → Except String SchemaState
  | .createSchema ine =>
      if !ine && s.hasSchema then .error "schema controller already exists"
      else .ok { s with hasSchema := true }
  | .createLogTable ine =>
      if !ine && s.hasLogTable then .error "relation controller.log already exists"
      else .ok { s with hasLogTable := true }
  | .createAppConfigTable ine =>
      if !ine && s.hasAppConfigTable then
        .error "relation controller.app_config already exists"
      else .ok { s with hasAppConfigTable := true }
  | .createNameVersionIdx ine =>
      if !ine && s.hasNameVersionIdx then
        .error "index idx_app_config_name_version already exists"
      else .ok { s with hasNameVersionIdx := true }

/-- The statement sequence of `ensure_schema_and_table(cur)`, in source
order: schema, `controller.log`, `controller.app_config`, index — every one
with `IF NOT EXISTS`. -/
def ensureStmts : List Stmt :=
  [.createSchema true, .createLogTable true,
   .createAppConfigTable true, .createNameVersionIdx true]

/-- `ensure_schema_and_table(cur)` from config.py: issue the four DDL
statements in order, stopping at the first error (a raised exception). -/
def ensure_schema_and_table (s : SchemaState) : Except String SchemaState :=
  ensureStmts.foldlM execStmt s

/-! ### Config reader (`read_config`) -/

/-- Result of opening and parsing the file at the configured path.
`otherErr` is any exception other than `FileNotFoundError` and
`json.JSONDecodeError` (permission error, decoding error, ...). -/
inductive FileOutcome where
  | missing
  | otherErr (e : String)
  | badJson (e : String)
  | parsed (doc : String)
deriving DecidableEq, Repr

/-- How a Python call ends: a returned value, process termination via
`sys.exit`, or an exception propagating to the caller. -/
inductive PyResult (α : Type) where
  | ret (a : α)
  | exited (code : Nat)
  | raised (e : String)
deriving DecidableEq, Repr

/-- One invocation of the audit logger `log_best_effort(action, status,
message)` as observed at the call site. -/
structure AuditCall where
  action : String
  status : String
  message : String
deriving DecidableEq, Repr

/-- Observable outcome of `read_config`: how it ended, what it printed,
and which audit-logger calls it made. -/
structure ReadOut where
  result : PyResult String
  prints : List String
  audits : List AuditCall
deriving DecidableEq, Repr

/-- `read_config(path)` from config.py: `open` + `json.load`, catching
exactly `FileNotFoundError` and `json.JSONDecodeError` (print, best-effort
audit log, `sys.exit(1)`); anything else propagates. -/
def read_config (path : String) : FileOutcome → ReadOut
  | .parsed doc => ⟨.ret doc, [], []⟩
  | .missing =>
      let msg := "Không tìm thấy file config: " ++ path
      ⟨.exited 1, ["❌ " ++ msg], [⟨"INIT_CONFIG_READ_FILE", "FAIL", msg⟩]⟩
  | .badJson e =>
      let msg := "Lỗi JSON trong file config " ++ path ++ ": " ++ e
      ⟨.exited 1, ["❌ " ++ msg], [⟨"INIT_CONFIG_READ_FILE", "FAIL", msg⟩]⟩
  | .otherErr e => ⟨.raised e, [], []⟩

/-! ### Environment variables and connection parameters -/

/-- `os.getenv(key, default)`: the variable's value when set, otherwise the
fallback. -/
def getenv (env : String → Option String) (key dflt : String) : String :=
  (env key).getD dflt

/-- Module-level `CONFIG_PATH = os.getenv("CONFIG_PATH", "./config_lottery.json")`. -/
def CONFIG_PATH (env : String → Option String) : String :=
  getenv env "CONFIG_PATH" "./config_lottery.json"

/-- Module-level `CONFIG_NAME = os.getenv("CONFIG_NAME", "lottery")`. -/
def CONFIG_NAME (env : String → Option String) : String :=
  getenv env "CONFIG_NAME" "lottery"

/-- Python `int(s)` on a string: optional surrounding whitespace, optional
sign, then at least one decimal digit; `none` models a raised `ValueError`. -/
def pyInt (s : String) : Option Int :=
  let t := s.trim
  let (sign, digits) :=
    if t.startsWith "-" then ((-1 : Int), t.drop 1)
    else if t.startsWith "+" then ((1 : Int), t.drop 1)
    else ((1 : Int), t)
  if digits.length > 0 && digits.toList.all Char.isDigit then
    some (sign * (digits.toList.foldl (fun a c => a * 10 + (c.toNat - 48)) 0 : Nat))
  else none

/-- Connection parameters computed by `get_raw_conn` from the environment;
`port` is `int(os.getenv("PGPORT", 5432))`, where a `none` records the
`ValueError` `int` raises on a non-numeric setting. -/
structure ConnParams where
  host : String
  port : Option Int
  dbname : String
  user : String
  password : String
deriving Repr

/-- Parameter computation of `get_raw_conn()` (the `psycopg2.connect` call
itself is fault-injected elsewhere). -/
def connParams (env : String → Option String) : ConnParams :=
  { host := getenv env "PGHOST" "postgres"
    port :=
      match env "PGPORT" with
      | none => some 5432
      | some s => pyInt s
    dbname := getenv env "PGDATABASE" "n8n_data"
    user := getenv env "PGUSER" "n8n"
    password := getenv env "PGPASSWORD" "n8n_pass" }

/-! ### Audit logger (`log_best_effort`) -/

/-- Fault-injection record for one `log_best_effort` call: whether the
fresh connection, the `ensure_log_table` DDL+commit, the log INSERT and the
final commit succeed, and the error details the failing steps raise. -/
structure LogEnv where
  connectOk : Bool
  connectErr : String
  ensureOk : Bool
  insertOk : Bool
  commitOk : Bool
  stepErr : String
deriving DecidableEq, Repr

/-- `get_raw_conn()`: opens a connection or raises; it catches nothing
itself ("KHÔNG bắt lỗi ở đây"). -/
def get_raw_conn (ok : Bool) (err : String) : Except String Unit :=
  if ok then .ok () else .error err

/-- `ensure_log_table(conn)` as seen from `log_best_effort`: DDL plus
commit, either succeeding or raising. -/
def ensure_log_table (env : LogEnv) : Except String Unit :=
  if env.ensureOk then .ok () else .error env.stepErr

/-- The `INSERT INTO controller.log` statement inside `log_best_effort`. -/
def insertLogRow (env : LogEnv) : Except String Unit :=
  if env.insertOk then .ok () else .error env.stepErr

/-- The `conn.commit()` at the end of `log_best_effort`'s try block. -/
def commitLog (env : LogEnv) : Except String Unit :=
  if env.commitOk then .ok () else .error env.stepErr

/-- The body of `log_best_effort`'s second try block, with exceptions still
propagating: ensure the log table, insert the row, commit. -/
def writeLogRow (env : LogEnv) : Except String Unit := do
  ensure_log_table env
  insertLogRow env
  commitLog env

/-- The dropped-entry warning `⚠️ BỎ QUA log [{action} - {status}]
message={message}` printed whenever an audit entry is lost. -/
def droppedNotice (action status message : String) : String :=
  "⚠️ BỎ QUA log [" ++ action ++ " - " ++ status ++ "] message=" ++ message

/-- Observable outcome of one `log_best_effort` call: warnings printed,
whether the row was durably logged, whether a connection was opened, and
whether it was closed before returning. -/
structure LogOut where
  warnings : List String
  logged : Bool
  opened : Bool
  closed : Bool
deriving DecidableEq, Repr

/-- `log_best_effort(action, status, message)` from config.py. The codomain
`Except String LogOut` is the caller-visible channel: an `.error` would be
an exception escaping to the caller, and each source `except` handler is a
branch mapping to `.ok`. The `finally: conn.close()` sets `closed`. -/
def log_best_effort (env : LogEnv) (action status message : String) :
    Except String LogOut :=
  match get_raw_conn env.connectOk env.connectErr with
  | .error e =>
      .ok ⟨["⚠️ Không thể connect DB để ghi log: " ++ e,
            droppedNotice action status message], false, false, false⟩
  | .ok _ =>
      match writeLogRow env with
      | .ok _ => .ok ⟨[], true, true, true⟩
      | .error e =>
          .ok ⟨["⚠️ Lỗi khi ghi log vào controller.log: " ++ e,
                droppedNotice action status message], false, true, true⟩

/-! ### Orchestrator (`main`) -/

/-- Fault-injection record for one run of `main`: the file outcome, the
primary connection, each fallible database step of the try block (schema
provisioning, the commit after it, the MAX query, the insert, the final
commit) with the error detail a failing step raises, the environment of the
nested audit-logger calls, and the committed `app_config` rows at start. -/
structure MainEnv where
  envVars : String → Option String
  file : FileOutcome
  connectOk : Bool
  connectErr : String
  provisionOk : Bool
  commit1Ok : Bool
  allocateOk : Bool
  insertOk : Bool
  commit2Ok : Bool
  dbErr : String
  logEnv : LogEnv
  db0 : List ConfigRow

/-- Observable outcome of one `main` run: the process exit code, the lines
`main` itself printed, the audit-logger calls it made, whether the open
transaction was rolled back, the committed `app_config` rows at exit, and
whether the primary connection was closed. -/
structure MainOut where
  exitCode : Nat
  prints : List String
  audits : List AuditCall
  rolledBack : Bool
  committedRows : List ConfigRow
  connClosed : Bool
deriving Repr

/-- The `except Exception` handler of `main`'s try block: print the error,
roll back the open transaction (committed rows stay as they were), audit-log
`INIT_CONFIG` / `FAIL`, `sys.exit(1)`; the `finally` closes cursor and
connection. -/
def mainFail (env : MainEnv) (prior : List String) : MainOut :=
  let msg := "Lỗi khi thao tác với database: " ++ env.dbErr
  ⟨1, prior ++ ["❌ " ++ msg], [⟨"INIT_CONFIG", "FAIL", msg⟩],
   true, env.db0, true⟩

/-- `main()` from config.py, driven by the fault-injection record. The
banner lines, phase prints and messages mirror the source; the uncaught
exception path (`read_config` propagating) ends the interpreter with exit
code 1. -/
def mainRun (env : MainEnv) : MainOut :=
  let path := CONFIG_PATH env.envVars
  let cname := CONFIG_NAME env.envVars
  let banner := ["====================================",
                 "📌 INIT CONFIG (SCHEMA: controller)",
                 "===================================="]
  match read_config path env.file with
  | ⟨.exited c, rPrints, rAudits⟩ =>
      ⟨c, banner ++ rPrints, rAudits, false, env.db0, false⟩
  | ⟨.raised _, rPrints, rAudits⟩ =>
      ⟨1, banner ++ rPrints, rAudits, false, env.db0, false⟩
  | ⟨.ret doc, _, _⟩ =>
      let p1 := banner ++ ["📄 Đã đọc file config: " ++ path]
      if env.connectOk then
        let p2 := p1 ++ ["🔌 Kết nối tới PostgreSQL thành công."]
        if !env.provisionOk then mainFail env p2
        else if !env.commit1Ok then mainFail env p2
        else
          let p3 := p2 ++
            ["📦 Schema \x27controller\x27 + bảng \x27controller.app_config\x27 & \x27controller.log\x27 đã sẵn sàng."]
          if !env.allocateOk then mainFail env p3
          else
            let nv := (get_next_version env.db0 cname).1
            let latest := (get_next_version env.db0 cname).2
            let p4 := p3 ++
              ["🔍 Version hiện tại cho \x27" ++ cname ++ "\x27: " ++ toString latest,
               "✨ Sẽ tạo bản mới version: " ++ toString nv]
            if !env.insertOk then mainFail env p4
            else
              let pending := insert_new_version env.db0 cname nv doc
              if !env.commit2Ok then mainFail env p4
              else
                let p5 := p4 ++
                  ["🎉 Đã chèn config mới vào controller.app_config (name=\x27" ++
                   cname ++ "\x27, version=" ++ toString nv ++ ")"]
                let successMsg := "Inserted config version " ++ toString nv ++
                  " cho \x27" ++ cname ++ "\x27"
                ⟨0,
                 p5 ++ ["====================================",
                        "🏁 HOÀN TẤT: Config versioning + logging đã sẵn sàng trong schema \x27controller\x27",
                        "===================================="],
                 [⟨"INIT_CONFIG", "SUCCESS", successMsg⟩],
                 false, pending, true⟩
      else
        let msg := "Không thể kết nối tới database: " ++ env.connectErr
        ⟨1, p1 ++ ["❌ " ++ msg], [⟨"INIT_CONFIG_DB_CONNECT", "FAIL", msg⟩],
         false, env.db0, false⟩

/-! ## Helper lemmas -/

theorem foldl_max_init_le (l : List Nat) (a : Nat) : a ≤ l.foldl max a := by
  induction l generalizing a with
  | nil => exact le_refl a
  | cons b l ih => exact le_trans (le_max_left a b) (ih (max a b))

theorem foldl_max_le_mem (l : List Nat) (a : Nat) : ∀ x ∈ l, x ≤ l.foldl max a := by
  induction l generalizing a with
  | nil => intro x hx; simp at hx
  | cons b l ih =>
    intro x hx
    rcases List.mem_cons.mp hx with h | h
    · subst h
      exact le_trans (le_max_right a x) (foldl_max_init_le l (max a x))
    · exact ih (max a b) x h

theorem foldl_max_cases (l : List Nat) (a : Nat) :
    l.foldl max a = a ∨ l.foldl max a ∈ l := by
  induction l generalizing a with
  | nil => exact Or.inl rfl
  | cons b l ih =>
    rcases ih (max a b) with h | h
    · rcases max_choice a b with hab | hab
      · exact Or.inl (by rw [List.foldl_cons, h, hab])
      · exact Or.inr (by rw [List.foldl_cons, h, hab]; exact List.mem_cons_self b l)
    · exact Or.inr (List.mem_cons_of_mem b h)

theorem sqlMaxVersion_append_same (rows : List ConfigRow) (n : String) (v : Nat)
    (d : String) :
    sqlMaxVersion (rows ++ [⟨n, v, d⟩]) n = max (sqlMaxVersion rows n) v := by
  simp [sqlMaxVersion, List.filter_append, List.foldl_append]

theorem insertRuns_filter (n D : String) (K : Nat) : ∀ (rows : List ConfigRow),
    (insertRuns rows n D K).filter (fun r => r.name == n)
      = rows.filter (fun r => r.name == n)
        ++ (List.range' (sqlMaxVersion rows n + 1) K).map
             (fun v => (⟨n, v, D⟩ : ConfigRow)) := by
  induction K with
  | zero => intro rows; simp [insertRuns]
  | succ K ih =>
    intro rows
    have hflow : insertFlow rows n D = rows ++ [⟨n, sqlMaxVersion rows n + 1, D⟩] := rfl
    have hM : sqlMaxVersion (insertFlow rows n D) n = sqlMaxVersion rows n + 1 := by
      rw [hflow, sqlMaxVersion_append_same]
      exact Nat.max_eq_right (Nat.le_succ _)
    show (insertRuns (insertFlow rows n D) n D K).filter (fun r => r.name == n) = _
    rw [ih (insertFlow rows n D), hM, hflow, List.filter_append]
    simp [List.range'_succ]

theorem insertRuns_append_only (n D : String) (K : Nat) : ∀ rows : List ConfigRow,
    ∃ ext, insertRuns rows n D K = rows ++ ext := by
  induction K with
  | zero => intro rows; exact ⟨[], by simp [insertRuns]⟩
  | succ K ih =>
    intro rows
    obtain ⟨ext, hext⟩ := ih (insertFlow rows n D)
    refine ⟨[⟨n, sqlMaxVersion rows n + 1, D⟩] ++ ext, ?_⟩
    show insertRuns (insertFlow rows n D) n D K = _
    rw [hext]
    simp [insertFlow, insert_new_version, get_next_version]

theorem find_version_range (n D : String) (K : Nat) : ∀ (s v : Nat), s ≤ v → v < s + K →
    ((List.range' s K).map (fun i => (⟨n, i, D⟩ : ConfigRow))).find?
        (fun r => r.version == v) = some ⟨n, v, D⟩ := by
  induction K with
  | zero => intro s v h1 h2; omega
  | succ K ih =>
    intro s v h1 h2
    rw [List.range'_succ, List.map_cons]
    by_cases hv : v = s
    · subst hv
      refine List.find?_cons_of_pos _ ?_
      show (v == v) = true
      exact beq_self_eq_true v
    · have hne : ¬((fun r : ConfigRow => r.version == v) ⟨n, s, D⟩ = true) := by
        show ¬((s == v) = true)
        simp only [beq_iff_eq]
        omega
      rw [@List.find?_cons_of_neg ConfigRow (fun r => r.version == v) ⟨n, s, D⟩ _ hne]
      exact ih (s + 1) v (by omega) (by omega)

theorem find?_over_filter {α : Type} (p q : α → Bool) (l : List α) :
    l.find? (fun a => p a && q a) = (l.filter p).find? q := by
  induction l with
  | nil => rfl
  | cons a l ih =>
    cases hp : p a with
    | true =>
      cases hq : q a with
      | true =>
        have h1 : (fun x => p x && q x) a = true := by
          show (p a && q a) = true
          rw [hp, hq]
          rfl
        rw [@List.find?_cons_of_pos _ (fun x => p x && q x) a _ h1,
            List.filter_cons_of_pos hp,
            @List.find?_cons_of_pos _ q a _ hq]
      | false =>
        have h1 : ¬((fun x => p x && q x) a = true) := by
          show ¬((p a && q a) = true)
          rw [hp, hq]
          simp
        have h2 : ¬(q a = true) := by rw [hq]; simp
        rw [@List.find?_cons_of_neg _ (fun x => p x && q x) a _ h1,
            List.filter_cons_of_pos hp,
            @List.find?_cons_of_neg _ q a _ h2, ih]
    | false =>
      have h1 : ¬((fun x => p x && q x) a = true) := by
        show ¬((p a && q a) = true)
        rw [hp]
        simp
      have h2 : ¬(p a = true) := by rw [hp]; simp
      rw [@List.find?_cons_of_neg _ (fun x => p x && q x) a _ h1,
          List.filter_cons_of_neg h2, ih]

/-! ## Claims -/

/-- C1: for every logical name and document, running the insert flow K times
sequentially with the same name (starting from a store with no rows for that
name) assigns versions 1..K in order: the stored versions for the name are
exactly the sequence 1, 2, ..., K with no gaps or duplicates, the document is
retrievable unchanged under each assigned version, and no previously inserted
row is mutated or deleted (the prior rows stay, untouched, at the front). -/
theorem insert_flow_version_sequence (rows0 : List ConfigRow) (n D : String)
    (K : Nat) (h : ∀ r ∈ rows0, r.name ≠ n) :
    ((insertRuns rows0 n D K).filter (fun r => r.name == n)).map (fun r => r.version)
      = List.range' 1 K ∧
    (∀ v, 1 ≤ v → v ≤ K → lookupConfig (insertRuns rows0 n D K) n v = some D) ∧
    (∃ ext, insertRuns rows0 n D K = rows0 ++ ext) := by
  have hnil : rows0.filter (fun r => r.name == n) = [] := by
    rw [List.filter_eq_nil_iff]
    intro r hr
    simp [h r hr]
  have hM : sqlMaxVersion rows0 n = 0 := by simp [sqlMaxVersion, hnil]
  have hfil := insertRuns_filter n D K rows0
  rw [hnil, hM] at hfil
  simp only [List.nil_append, Nat.zero_add] at hfil
  refine ⟨?_, ?_, insertRuns_append_only n D K rows0⟩
  · rw [hfil, List.map_map]
    show List.map (fun v => v) (List.range' 1 K) = List.range' 1 K
    exact List.map_id' _
  · intro v h1 h2
    show ((insertRuns rows0 n D K).find?
        (fun r => r.name == n && r.version == v)).map (fun r => r.config) = some D
    have hsplit := find?_over_filter (fun r : ConfigRow => r.name == n)
      (fun r : ConfigRow => r.version == v) (insertRuns rows0 n D K)
    rw [hsplit, hfil, find_version_range n D K 1 v h1 (by omega)]
    rfl

/-- C1 witness: three runs for name "lottery" on an empty store yield
versions 1, 2, 3, each retrieving the inserted document. -/
theorem insert_flow_version_sequence_witness :
    ((insertRuns [] "lottery" "doc" 3).filter (fun r => r.name == "lottery")).map
        (fun r => r.version) = List.range' 1 3 ∧
    (∀ v, 1 ≤ v → v ≤ 3 → lookupConfig (insertRuns [] "lottery" "doc" 3) "lottery" v
        = some "doc") ∧
    (∃ ext, insertRuns [] "lottery" "doc" 3 = [] ++ ext) :=
  insert_flow_version_sequence [] "lottery" "doc" 3 (by simp)

/-- C2: `get_next_version` returns the pair (latest + 1, latest), where
latest is the maximum version among the stored rows whose name matches (an
upper bound that is attained whenever it is nonzero), and latest is 0 when no
rows exist for the name. -/
theorem get_next_version_correct (rows : List ConfigRow) (n : String) :
    (get_next_version rows n).1 = (get_next_version rows n).2 + 1 ∧
    (∀ r ∈ rows, r.name = n → r.version ≤ (get_next_version rows n).2) ∧
    ((get_next_version rows n).2 = 0 ∨
      ∃ r ∈ rows, r.name = n ∧ r.version = (get_next_version rows n).2) ∧
    ((∀ r ∈ rows, r.name ≠ n) → (get_next_version rows n).2 = 0) := by
  refine ⟨rfl, ?_, ?_, ?_⟩
  · intro r hr hname
    have hf : r ∈ rows.filter (fun r => r.name == n) := by
      simp [List.mem_filter, hr, hname]
    have hv : r.version ∈ (rows.filter (fun r => r.name == n)).map
        (fun r => r.version) := List.mem_map_of_mem _ hf
    exact foldl_max_le_mem _ 0 _ hv
  · rcases foldl_max_cases
        ((rows.filter (fun r => r.name == n)).map (fun r => r.version)) 0 with h | h
    · exact Or.inl h
    · right
      rcases List.mem_map.mp h with ⟨r, hrf, hrv⟩
      have hm := List.mem_filter.mp hrf
      exact ⟨r, hm.1, by simpa using hm.2, hrv⟩
  · intro hnone
    have hnil : rows.filter (fun r => r.name == n) = [] := by
      rw [List.filter_eq_nil_iff]
      intro a ha
      simp [hnone a ha]
    show sqlMaxVersion rows n = 0
    simp [sqlMaxVersion, hnil]

/-- The concrete store used by the C2 witness. -/
def witnessRowsC2 : List ConfigRow :=
  [⟨"lottery", 1, "a"⟩, ⟨"other", 9, "b"⟩, ⟨"lottery", 2, "c"⟩]

/-- C2 witness: on a store holding versions 1 and 2 for "lottery" plus an
unrelated name, the allocator's bounds hold at that concrete input. -/
theorem get_next_version_correct_witness :
    (get_next_version witnessRowsC2 "lottery").1 =
      (get_next_version witnessRowsC2 "lottery").2 + 1 ∧
    (∀ r ∈ witnessRowsC2, r.name = "lottery" →
        r.version ≤ (get_next_version witnessRowsC2 "lottery").2) ∧
    ((get_next_version witnessRowsC2 "lottery").2 = 0 ∨
      ∃ r ∈ witnessRowsC2, r.name = "lottery" ∧
        r.version = (get_next_version witnessRowsC2 "lottery").2) ∧
    ((∀ r ∈ witnessRowsC2, r.name ≠ "lottery") →
      (get_next_version witnessRowsC2 "lottery").2 = 0) :=
  get_next_version_correct witnessRowsC2 "lottery"

/-- C4: `log_best_effort` never raises to its caller: for every environment
(including every combination of connection, DDL, insert and commit failures)
it returns `.ok` — no exception escapes — and whichever internal step fails,
the failure is converted into printed warnings that include the notice naming
the dropped entry (action, status, message). -/
theorem log_best_effort_never_raises (env : LogEnv) (action status message : String) :
    ∃ out, log_best_effort env action status message = Except.ok out ∧
      (∀ e, get_raw_conn env.connectOk env.connectErr = Except.error e →
        out.warnings = ["⚠️ Không thể connect DB để ghi log: " ++ e,
                        droppedNotice action status message]) ∧
      (∀ e, env.connectOk = true → writeLogRow env = Except.error e →
        out.warnings = ["⚠️ Lỗi khi ghi log vào controller.log: " ++ e,
                        droppedNotice action status message]) := by
  cases hc : env.connectOk with
  | false =>
    refine ⟨⟨["⚠️ Không thể connect DB để ghi log: " ++ env.connectErr,
              droppedNotice action status message], false, false, false⟩, ?_, ?_, ?_⟩
    · simp [log_best_effort, get_raw_conn, hc]
    · intro e he
      simp [get_raw_conn, hc] at he
      subst he
      rfl
    · intro e hcc
      cases hcc
  | true =>
    cases hw : writeLogRow env with
    | ok u =>
      refine ⟨⟨[], true, true, true⟩, ?_, ?_, ?_⟩
      · simp [log_best_effort, get_raw_conn, hc, hw]
      · intro e he
        simp [get_raw_conn, hc] at he
      · intro e _ he
        cases he
    | error e0 =>
      refine ⟨⟨["⚠️ Lỗi khi ghi log vào controller.log: " ++ e0,
                droppedNotice action status message], false, true, true⟩, ?_, ?_, ?_⟩
      · simp [log_best_effort, get_raw_conn, hc, hw]
      · intro e he
        simp [get_raw_conn, hc] at he
      · intro e _ he
        injection he with h1
        subst h1
        rfl

/-- C4 witness: with a failing insert step, the call still returns `.ok`
and the dropped-entry notice is among the warnings. -/
theorem log_best_effort_never_raises_witness :
    ∃ out, log_best_effort ⟨true, "", true, false, true, "insert failed"⟩
        "INIT_CONFIG" "FAIL" "m" = Except.ok out ∧
      (∀ e, get_raw_conn (LogEnv.connectOk ⟨true, "", true, false, true, "insert failed"⟩)
          (LogEnv.connectErr ⟨true, "", true, false, true, "insert failed"⟩) =
          Except.error e →
        out.warnings = ["⚠️ Không thể connect DB để ghi log: " ++ e,
                        droppedNotice "INIT_CONFIG" "FAIL" "m"]) ∧
      (∀ e, LogEnv.connectOk ⟨true, "", true, false, true, "insert failed"⟩ = true →
        writeLogRow ⟨true, "", true, false, true, "insert failed"⟩ = Except.error e →
        out.warnings = ["⚠️ Lỗi khi ghi log vào controller.log: " ++ e,
                        droppedNotice "INIT_CONFIG" "FAIL" "m"]) :=
  log_best_effort_never_raises ⟨true, "", true, false, true, "insert failed"⟩
    "INIT_CONFIG" "FAIL" "m"

/-- C8: in every execution of `log_best_effort` in which a connection was
obtained (`connectOk`), the connection is closed before the call returns —
on the success path and on every failure of the ensure-table, insert and
commit steps alike. -/
theorem log_best_effort_closes_conn (env : LogEnv) (a s m : String)
    (hc : env.connectOk = true) :
    ∃ out, log_best_effort env a s m = Except.ok out ∧
      out.opened = true ∧ out.closed = true := by
  cases hw : writeLogRow env with
  | ok u =>
    exact ⟨⟨[], true, true, true⟩, by simp [log_best_effort, get_raw_conn, hc, hw],
      rfl, rfl⟩
  | error e =>
    exact ⟨⟨["⚠️ Lỗi khi ghi log vào controller.log: " ++ e,
             droppedNotice a s m], false, true, true⟩,
      by simp [log_best_effort, get_raw_conn, hc, hw], rfl, rfl⟩

/-- C8 witness: a run whose commit step fails still closes the connection
it opened. -/
theorem log_best_effort_closes_conn_witness :
    ∃ out, log_best_effort ⟨true, "", true, true, false, "commit failed"⟩
        "INIT_CONFIG" "SUCCESS" "m" = Except.ok out ∧
      out.opened = true ∧ out.closed = true :=
  log_best_effort_closes_conn ⟨true, "", true, true, false, "commit failed"⟩
    "INIT_CONFIG" "SUCCESS" "m" rfl

/-- C5: `read_config` on a missing file prints the failure, calls the audit
logger with action INIT_CONFIG_READ_FILE, status FAIL and a message naming
the missing path, and terminates the process with exit code 1; on a JSON
parse error it does the same with a message carrying the parse error detail
and the path; on success it returns the parsed document unchanged and
unvalidated. -/
theorem read_config_error_paths (path e doc : String) :
    read_config path .missing =
      ⟨.exited 1, ["❌ Không tìm thấy file config: " ++ path],
       [⟨"INIT_CONFIG_READ_FILE", "FAIL", "Không tìm thấy file config: " ++ path⟩]⟩ ∧
    read_config path (.badJson e) =
      ⟨.exited 1, ["❌ Lỗi JSON trong file config " ++ path ++ ": " ++ e],
       [⟨"INIT_CONFIG_READ_FILE", "FAIL",
         "Lỗi JSON trong file config " ++ path ++ ": " ++ e⟩]⟩ ∧
    read_config path (.parsed doc) = ⟨.ret doc, [], []⟩ :=
  ⟨rfl, rfl, rfl⟩

/-- C5 witness: the theorem instantiated at the default path and a concrete
parse error and document. -/
theorem read_config_error_paths_witness :
    read_config "./config_lottery.json" .missing =
      ⟨.exited 1, ["❌ Không tìm thấy file config: " ++ "./config_lottery.json"],
       [⟨"INIT_CONFIG_READ_FILE", "FAIL",
         "Không tìm thấy file config: " ++ "./config_lottery.json"⟩]⟩ ∧
    read_config "./config_lottery.json" (.badJson "Expecting value: line 1 column 1 (char 0)") =
      ⟨.exited 1,
       ["❌ Lỗi JSON trong file config " ++ "./config_lottery.json" ++ ": " ++
         "Expecting value: line 1 column 1 (char 0)"],
       [⟨"INIT_CONFIG_READ_FILE", "FAIL",
         "Lỗi JSON trong file config " ++ "./config_lottery.json" ++ ": " ++
           "Expecting value: line 1 column 1 (char 0)"⟩]⟩ ∧
    read_config "./config_lottery.json" (.parsed "doc") = ⟨.ret "doc", [], []⟩ :=
  read_config_error_paths "./config_lottery.json"
    "Expecting value: line 1 column 1 (char 0)" "doc"

/-- C10: `read_config` catches only file-not-found and JSON-parse errors;
any other error while opening or reading the file propagates uncaught — the
call raises, makes no audit call (in particular none with action
INIT_CONFIG_READ_FILE), prints nothing, and does not exit. -/
theorem read_config_other_error_propagates (path e : String) :
    read_config path (.otherErr e) = ⟨.raised e, [], []⟩ ∧
    (read_config path (.otherErr e)).audits = [] ∧
    ∀ c, (read_config path (.otherErr e)).result ≠ .exited c := by
  refine ⟨rfl, rfl, ?_⟩
  intro c hcon
  simp [read_config] at hcon

/-- C10 witness: a permission error at the default path propagates with no
audit call and no exit. -/
theorem read_config_other_error_propagates_witness :
    read_config "./config_lottery.json"
        (.otherErr "PermissionError: [Errno 13] Permission denied") =
      ⟨.raised "PermissionError: [Errno 13] Permission denied", [], []⟩ ∧
    (read_config "./config_lottery.json"
        (.otherErr "PermissionError: [Errno 13] Permission denied")).audits = [] ∧
    ∀ c, (read_config "./config_lottery.json"
        (.otherErr "PermissionError: [Errno 13] Permission denied")).result ≠
      .exited c :=
  read_config_other_error_propagates "./config_lottery.json"
    "PermissionError: [Errno 13] Permission denied"

/-- C6: schema provisioning is idempotent: from any schema state a run
issues the same four IF-NOT-EXISTS statements in order (namespace, audit
table, versioned-config table, index) and succeeds, always producing the
fully-provisioned state; a run after the first successful one therefore
errors nowhere and has no effect (no duplicate objects, the state is
unchanged). -/
theorem ensure_schema_and_table_idempotent (s : SchemaState) :
    ensure_schema_and_table s = Except.ok ⟨true, true, true, true⟩ ∧
    ensure_schema_and_table ⟨true, true, true, true⟩ =
      Except.ok ⟨true, true, true, true⟩ ∧
    ensureStmts = [.createSchema true, .createLogTable true,
                   .createAppConfigTable true, .createNameVersionIdx true] :=
  ⟨rfl, rfl, rfl⟩

/-- C6 witness: provisioning an empty database succeeds, and re-running on
the resulting state changes nothing. -/
theorem ensure_schema_and_table_idempotent_witness :
    ensure_schema_and_table ⟨false, false, false, false⟩ =
      Except.ok ⟨true, true, true, true⟩ ∧
    ensure_schema_and_table ⟨true, true, true, true⟩ =
      Except.ok ⟨true, true, true, true⟩ ∧
    ensureStmts = [.createSchema true, .createLogTable true,
                   .createAppConfigTable true, .createNameVersionIdx true] :=
  ensure_schema_and_table_idempotent ⟨false, false, false, false⟩

/-- C9: all run configuration comes from optional environment variables with
fixed fallbacks: the port defaults to 5432, the config file path to
./config_lottery.json and the logical name to "lottery", and each default is
used exactly when the corresponding variable is unset (a set variable's
value is taken instead). -/
theorem env_var_defaults (env : String → Option String) (s : String) :
    (env "PGPORT" = none → (connParams env).port = some 5432) ∧
    (env "PGPORT" = some s → (connParams env).port = pyInt s) ∧
    (env "CONFIG_PATH" = none → CONFIG_PATH env = "./config_lottery.json") ∧
    (env "CONFIG_PATH" = some s → CONFIG_PATH env = s) ∧
    (env "CONFIG_NAME" = none → CONFIG_NAME env = "lottery") ∧
    (env "CONFIG_NAME" = some s → CONFIG_NAME env = s) := by
  refine ⟨?_, ?_, ?_, ?_, ?_, ?_⟩ <;> intro h <;>
    simp [connParams, CONFIG_PATH, CONFIG_NAME, getenv, h]

/-- C9 witness: with no variables set all three defaults apply; with each
variable set its value is used instead of the default. -/
theorem env_var_defaults_witness :
    (connParams (fun _ => none)).port = some 5432 ∧
    (connParams (fun _ => some "7777")).port = pyInt "7777" ∧
    CONFIG_PATH (fun _ => none) = "./config_lottery.json" ∧
    CONFIG_PATH (fun _ => some "/tmp/c.json") = "/tmp/c.json" ∧
    CONFIG_NAME (fun _ => none) = "lottery" ∧
    CONFIG_NAME (fun _ => some "alt") = "alt" :=
  ⟨(env_var_defaults (fun _ => none) "7777").1 rfl,
   (env_var_defaults (fun _ => some "7777") "7777").2.1 rfl,
   (env_var_defaults (fun _ => none) "/tmp/c.json").2.2.1 rfl,
   (env_var_defaults (fun _ => some "/tmp/c.json") "/tmp/c.json").2.2.2.1 rfl,
   (env_var_defaults (fun _ => none) "alt").2.2.2.2.1 rfl,
   (env_var_defaults (fun _ => some "alt") "alt").2.2.2.2.2 rfl⟩

/-- C3: whenever the config file was read and the connection obtained, an
exception in the provision, allocate-version or insert step makes the
orchestrator roll back the open transaction (the committed `app_config` rows
are exactly the initial ones — no partial state persists), print the error,
call the audit logger best-effort with action INIT_CONFIG and status FAIL
carrying the error detail, close the connection, and exit with code 1. -/
theorem mainRun_db_failure (env : MainEnv) (doc : String)
    (hf : env.file = .parsed doc) (hc : env.connectOk = true)
    (hfail : env.provisionOk = false ∨ env.allocateOk = false ∨
      env.insertOk = false) :
    (mainRun env).exitCode = 1 ∧
    (mainRun env).rolledBack = true ∧
    (mainRun env).committedRows = env.db0 ∧
    ("❌ " ++ ("Lỗi khi thao tác với database: " ++ env.dbErr)) ∈ (mainRun env).prints ∧
    (mainRun env).audits =
      [⟨"INIT_CONFIG", "FAIL", "Lỗi khi thao tác với database: " ++ env.dbErr⟩] ∧
    (mainRun env).connClosed = true := by
  obtain ⟨ev, file, cOk, cErr, pOk, c1, aOk, iOk, c2, dbe, lenv, db0⟩ := env
  simp only at hf hc hfail ⊢
  subst hf
  subst hc
  cases pOk <;> cases c1 <;> cases aOk <;> cases iOk <;> cases c2 <;>
    simp_all [mainRun, read_config, mainFail]

/-- The concrete fault environment of the C3 witness: file read and
connection succeed, the insert step raises. -/
def witnessEnvC3 : MainEnv :=
  { envVars := fun _ => none
    file := .parsed "doc"
    connectOk := true
    connectErr := ""
    provisionOk := true
    commit1Ok := true
    allocateOk := true
    insertOk := false
    commit2Ok := true
    dbErr := "duplicate key value violates unique constraint"
    logEnv := ⟨true, "", true, true, true, ""⟩
    db0 := [] }

/-- C3 witness: with a failing insert the run exits 1, rolls back, keeps the
committed rows unchanged, prints the error and audit-logs INIT_CONFIG/FAIL. -/
theorem mainRun_db_failure_witness :
    (mainRun witnessEnvC3).exitCode = 1 ∧
    (mainRun witnessEnvC3).rolledBack = true ∧
    (mainRun witnessEnvC3).committedRows = witnessEnvC3.db0 ∧
    ("❌ " ++ ("Lỗi khi thao tác với database: " ++ witnessEnvC3.dbErr)) ∈
      (mainRun witnessEnvC3).prints ∧
    (mainRun witnessEnvC3).audits =
      [⟨"INIT_CONFIG", "FAIL",
        "Lỗi khi thao tác với database: " ++ witnessEnvC3.dbErr⟩] ∧
    (mainRun witnessEnvC3).connClosed = true :=
  mainRun_db_failure witnessEnvC3 "doc" rfl rfl (Or.inr (Or.inr rfl))

/-- C7: every run exits with code 0 or code 1, and it exits 0 exactly when
the whole flow succeeds: the config file is read, the connection is obtained,
and provisioning, both commits, version allocation and the insert all
succeed; every failure path exits 1. -/
theorem mainRun_exit_codes (env : MainEnv) :
    ((mainRun env).exitCode = 0 ∨ (mainRun env).exitCode = 1) ∧
    ((mainRun env).exitCode = 0 ↔
      ((∃ doc, env.file = .parsed doc) ∧ env.connectOk = true ∧
       env.provisionOk = true ∧ env.commit1Ok = true ∧ env.allocateOk = true ∧
       env.insertOk = true ∧ env.commit2Ok = true)) := by
  obtain ⟨ev, file, cOk, cErr, pOk, c1, aOk, iOk, c2, dbe, lenv, db0⟩ := env
  cases file <;> cases cOk <;> cases pOk <;> cases c1 <;> cases aOk <;>
    cases iOk <;> cases c2 <;> simp [mainRun, read_config, mainFail]

/-- The fully-succeeding environment of the C7 witness. -/
def witnessEnvC7 : MainEnv :=
  { envVars := fun _ => none
    file := .parsed "doc"
    connectOk := true
    connectErr := ""
    provisionOk := true
    commit1Ok := true
    allocateOk := true
    insertOk := true
    commit2Ok := true
    dbErr := ""
    logEnv := ⟨true, "", true, true, true, ""⟩
    db0 := [] }

/-- C7 witness: the exit-code law instantiated at a fully-succeeding run. -/
theorem mainRun_exit_codes_witness :
    ((mainRun witnessEnvC7).exitCode = 0 ∨ (mainRun witnessEnvC7).exitCode = 1) ∧
    ((mainRun witnessEnvC7).exitCode = 0 ↔
      ((∃ doc, witnessEnvC7.file = .parsed doc) ∧ witnessEnvC7.connectOk = true ∧
       witnessEnvC7.provisionOk = true ∧ witnessEnvC7.commit1Ok = true ∧
       witnessEnvC7.allocateOk = true ∧ witnessEnvC7.insertOk = true ∧
       witnessEnvC7.commit2Ok = true)) :=
  mainRun_exit_codes witnessEnvC7
